import Mathlib

/-!
# Support ticket workspace: client state engine

A shallow embedding of the React components of the ticket client
(`TicketForm.jsx`, `TicketList.jsx`, `App.jsx`, `api/tickets.js`).

Every component is a record of its `useState` slots.  An event handler is a
function from the record at the render in which the handler runs to the next
record together with the list of effects it performs (remote calls issued,
callbacks and props invoked).  An `async` handler is split at its `await`:
the part that runs synchronously inside the event, and one continuation for
each way the awaited promise can settle.  Between the two parts any other
event may run, so the continuation takes the record current at settle time.

Timers (`setTimeout`, `clearTimeout`, `Date.now`) are modelled with a logical
clock counted in milliseconds.
-/

namespace SupportTicket

/-! ## JavaScript strings -/

/-- A JavaScript string value: its sequence of UTF-16 code units. -/
abbrev JsString := List Nat

/-- UTF-16 encoding of one Unicode scalar value. -/
def utf16 (c : Char) : List Nat :=
  if c.toNat < 65536 then [c.toNat]
  else [55296 + (c.toNat - 65536) / 1024, 56320 + (c.toNat - 65536) % 1024]

/-- The JavaScript string denoted by a source literal. -/
def js (s : String) : JsString :=
  s.toList.foldr (fun c acc => utf16 c ++ acc) []

/-- Truthiness of a string: every string but the empty one is truthy. -/
def truthy (s : JsString) : Bool :=
  !s.isEmpty

/-- Code units removed by `String.prototype.trim`: ECMAScript WhiteSpace
(TAB, VT, FF, ZWNBSP and the space separators) and LineTerminator. -/
def isTrimUnit (u : Nat) : Bool :=
  u == 9 || u == 10 || u == 11 || u == 12 || u == 13 || u == 32 || u == 160
    || u == 5760 || (8192 ≤ u && u ≤ 8202) || u == 8232 || u == 8233
    || u == 8239 || u == 8287 || u == 12288 || u == 65279

/-- `s.trim()`: strip leading and trailing white space. -/
def trim (s : JsString) : JsString :=
  ((s.dropWhile isTrimUnit).reverse.dropWhile isTrimUnit).reverse

/-- `s.slice(0, n)` for a non-negative `n`. -/
def slice0 (s : JsString) (n : Nat) : JsString :=
  s.take n

/-- `s.replace(a, b)` with a one-unit string pattern: only the first
occurrence is replaced. -/
def replaceFirst (a b : Nat) : JsString → JsString
  | [] => []
  | u :: rest => if u = a then b :: rest else u :: replaceFirst a b rest

/-! ## TicketForm.jsx -/

/-- The `useState` slots of `TicketForm`. -/
structure FormState where
  title : JsString
  description : JsString
  category : JsString
  priority : JsString
  isSubmitting : Bool
  isClassifying : Bool
  classifySuggested : Bool
  error : JsString
  deriving DecidableEq, Repr

/-- The slots at mount. -/
def FormState.initial : FormState :=
  { title := [], description := [], category := [], priority := [],
    isSubmitting := false, isClassifying := false, classifySuggested := false,
    error := [] }

/-- The object handed to `createTicket`. -/
structure TicketData where
  title : JsString
  description : JsString
  category : JsString
  priority : JsString
  deriving DecidableEq, Repr

/-- What a handler of the form does to the outside. -/
inductive FormEffect where
  | createTicket (data : TicketData)
  | classifyTicket (description : JsString)
  | onTicketCreated
  deriving DecidableEq, Repr

/-- The body of a classification response. -/
structure ClassifyResult where
  suggested_category : Option JsString
  suggested_priority : Option JsString
  deriving DecidableEq, Repr

/-- Truthiness of an optional string field (`undefined`, `null` and `''`
are falsy). -/
def truthyOpt : Option JsString → Bool
  | none => false
  | some v => truthy v

/-- How the promise of `createTicket` settles; a rejection carries
`err.response?.data?.detail`. -/
inductive CreateOutcome where
  | resolved
  | rejected (detail : Option JsString)
  deriving DecidableEq, Repr

/-- Synchronous part of `handleSubmit`, up to `await createTicket(...)`. -/
def handleSubmit (s : FormState) : FormState × List FormEffect :=
  let s := { s with error := [] }
  if !truthy (trim s.title) then
    ({ s with error := js "Title is required." }, [])
  else if !truthy (trim s.description) then
    ({ s with error := js "Description is required." }, [])
  else if !truthy s.category then
    ({ s with error := js "Please select a category." }, [])
  else if !truthy s.priority then
    ({ s with error := js "Please select a priority level." }, [])
  else
    ({ s with isSubmitting := true },
      [FormEffect.createTicket
        { title := trim s.title, description := trim s.description,
          category := s.category, priority := s.priority }])

/-- Continuation of `handleSubmit` once `createTicket` has settled: the rest
of the `try` block or the `catch` block, then `finally`. -/
def handleSubmitSettled (s : FormState) : CreateOutcome → FormState × List FormEffect
  | CreateOutcome.resolved =>
    ({ s with title := [], description := [], category := [], priority := [],
              classifySuggested := false, error := [], isSubmitting := false },
      [FormEffect.onTicketCreated])
  | CreateOutcome.rejected detail =>
    ({ s with
        error := if truthyOpt detail then detail.getD []
                 else js "Failed to create ticket. Please try again.",
        isSubmitting := false }, [])

/-- A whole run of `handleSubmit` with no other event in between: the
continuation runs exactly when a create call was awaited. -/
def submitRun (s : FormState) (o : CreateOutcome) : FormState × List FormEffect :=
  let r := handleSubmit s
  match r.2 with
  | [] => r
  | _ :: _ =>
    let r2 := handleSubmitSettled r.1 o
    (r2.1, r.2 ++ r2.2)

/-- The `disabled` attribute of the submit button. -/
def submitDisabled (s : FormState) : Bool :=
  s.isSubmitting

/-- Whether one of the `required` controls of the form (title input,
description field, category select, priority select) holds the empty string.
White space counts as a value. -/
def requiredMissing (s : FormState) : Bool :=
  !truthy s.title || !truthy s.description || !truthy s.category || !truthy s.priority

/-- A click on the submit button, or an implicit submission of the form (the
button is its only submit button).  `handleSubmit` is bound to `onSubmit` of
the form and to nothing else, and the browser fires the submit event only
when the button is not disabled and no `required` control is empty;
otherwise nothing runs. -/
def submitClick (s : FormState) : FormState × List FormEffect :=
  if submitDisabled s || requiredMissing s then (s, []) else handleSubmit s

/-- Synchronous part of `handleClassify`, up to `await classifyTicket(...)`. -/
def handleClassify (s : FormState) : FormState × List FormEffect :=
  if !truthy (trim s.description) || decide ((trim s.description).length < 10) then
    (s, [])
  else
    ({ s with isClassifying := true, classifySuggested := false },
      [FormEffect.classifyTicket s.description])

/-- Continuation of `handleClassify` when `classifyTicket` resolves with
`result`: the rest of the `try` block, then `finally`. -/
def handleClassifyResolved (s : FormState) (result : ClassifyResult) : FormState :=
  let s := if truthyOpt result.suggested_category
    then { s with category := result.suggested_category.getD [] } else s
  let s := if truthyOpt result.suggested_priority
    then { s with priority := result.suggested_priority.getD [] } else s
  let s := if truthyOpt result.suggested_category || truthyOpt result.suggested_priority
    then { s with classifySuggested := true } else s
  { s with isClassifying := false }

/-- Continuation of `handleClassify` when `classifyTicket` rejects: the
`catch` block only logs, then `finally`. -/
def handleClassifyRejected (s : FormState) : FormState :=
  { s with isClassifying := false }

/-- The `onBlur` handler of the description field. -/
def handleDescriptionBlur (s : FormState) : FormState × List FormEffect :=
  if decide ((trim s.description).length ≥ 10) && !truthy s.category && !truthy s.priority then
    handleClassify s
  else
    (s, [])

/-- The `disabled` attribute of the Re-classify button. -/
def classifyDisabled (s : FormState) : Bool :=
  s.isClassifying || !truthy (trim s.description)

/-- The `onChange` handler of the title input. -/
def titleChange (s : FormState) (value : JsString) : FormState :=
  { s with title := slice0 value 200 }

/-- The `onChange` handler of the description field. -/
def descriptionChange (s : FormState) (value : JsString) : FormState :=
  { s with description := value }

/-- The `onChange` handler of the category select. -/
def categoryChange (s : FormState) (value : JsString) : FormState :=
  { s with category := value }

/-- The `onChange` handler of the priority select. -/
def priorityChange (s : FormState) (value : JsString) : FormState :=
  { s with priority := value }

/-- A click on the Re-classify button: nothing runs while it is disabled. -/
def classifyClick (s : FormState) : FormState × List FormEffect :=
  if classifyDisabled s then (s, []) else handleClassify s

/-- One mounted form together with the number of its create calls that have
been issued and have not settled yet. -/
structure FormRun where
  st : FormState
  pending : Nat
  deriving DecidableEq, Repr

/-- The form right after its mount. -/
def FormRun.mounted : FormRun :=
  { st := FormState.initial, pending := 0 }

/-- Everything that can happen to a mounted form: the user acts on a
control, or the promise of a remote call settles. -/
inductive FormEvent where
  | titleInput (value : JsString)
  | descriptionInput (value : JsString)
  | categoryPick (value : JsString)
  | priorityPick (value : JsString)
  | descriptionBlur
  | reclassify
  | classifyResolved (result : ClassifyResult)
  | classifyRejected
  | submit
  | createSettled (outcome : CreateOutcome)
  deriving DecidableEq, Repr

/-- One event on the mounted form.  A create call settles only if one is in
flight.  A classification may settle at any time: that allows every order in
which the responses of overlapping classify calls can arrive. -/
def formStep (w : FormRun) : FormEvent → FormRun × List FormEffect
  | FormEvent.titleInput v => ({ w with st := titleChange w.st v }, [])
  | FormEvent.descriptionInput v => ({ w with st := descriptionChange w.st v }, [])
  | FormEvent.categoryPick v => ({ w with st := categoryChange w.st v }, [])
  | FormEvent.priorityPick v => ({ w with st := priorityChange w.st v }, [])
  | FormEvent.descriptionBlur =>
    ({ w with st := (handleDescriptionBlur w.st).1 }, (handleDescriptionBlur w.st).2)
  | FormEvent.reclassify =>
    ({ w with st := (classifyClick w.st).1 }, (classifyClick w.st).2)
  | FormEvent.classifyResolved r => ({ w with st := handleClassifyResolved w.st r }, [])
  | FormEvent.classifyRejected => ({ w with st := handleClassifyRejected w.st }, [])
  | FormEvent.submit =>
    ({ st := (submitClick w.st).1,
       pending := w.pending + ((submitClick w.st).2.filter
         (fun e => match e with
           | FormEffect.createTicket _ => true
           | _ => false)).length },
      (submitClick w.st).2)
  | FormEvent.createSettled o =>
    if w.pending = 0 then (w, [])
    else ({ st := (handleSubmitSettled w.st o).1, pending := w.pending - 1 },
          (handleSubmitSettled w.st o).2)

/-- The form after a sequence of events, in order. -/
def formTrace (w : FormRun) (evs : List FormEvent) : FormRun :=
  evs.foldl (fun acc e => (formStep acc e).1) w

/-- Whether the badge next to the category label is rendered:
`classifySuggested && category`. -/
def categoryBadge (s : FormState) : Bool :=
  s.classifySuggested && truthy s.category

/-- Whether the badge next to the priority label is rendered:
`classifySuggested && priority`. -/
def priorityBadge (s : FormState) : Bool :=
  s.classifySuggested && truthy s.priority

/-! ## api/tickets.js and TicketList.jsx -/

/-- A ticket as returned by the remote service. -/
structure Ticket where
  id : Nat
  title : JsString
  description : JsString
  category : JsString
  priority : JsString
  status : JsString
  created_at : JsString
  deriving DecidableEq, Repr

/-- The filter object of a list request; `none` is `undefined`. -/
structure TicketQuery where
  category : Option JsString
  priority : Option JsString
  status : Option JsString
  search : Option JsString
  deriving DecidableEq, Repr

/-- The expression `v || undefined`. -/
def orUndefined (v : JsString) : Option JsString :=
  if truthy v then some v else none

/-- The `params` object `getTickets` builds: a key is present exactly when
the argument is truthy. -/
def getTicketsParams (q : TicketQuery) : TicketQuery :=
  { category := if truthyOpt q.category then q.category else none,
    priority := if truthyOpt q.priority then q.priority else none,
    status := if truthyOpt q.status then q.status else none,
    search := if truthyOpt q.search then q.search else none }

/-- The `useState` slots of `TicketList`, and the handle of the pending
timeout of the debounce effect: its due time and the `searchInput` its
callback closed over. -/
structure ListState where
  tickets : List Ticket
  loading : Bool
  search : JsString
  filterCategory : JsString
  filterPriority : JsString
  filterStatus : JsString
  searchInput : JsString
  searchTimer : Option (Nat × JsString)
  deriving DecidableEq, Repr

/-- What a handler of the list does to the outside. -/
inductive ListEffect where
  | getTickets (params : TicketQuery)
  | updateTicket (id : Nat) (status : JsString)
  | addToast (message : JsString) (type : JsString)
  | onStatusChange
  deriving DecidableEq, Repr

/-- The slots after the mount at clock reading `now`: the debounce effect has
run once and its timeout is pending. -/
def ListState.initial (now : Nat) : ListState :=
  { tickets := [], loading := true, search := [], filterCategory := [],
    filterPriority := [], filterStatus := [], searchInput := [],
    searchTimer := some (now + 400, []) }

/-- Synchronous part of `fetchTickets`, up to `await getTickets(...)`. -/
def fetchTickets (s : ListState) : ListState × List ListEffect :=
  ({ s with loading := true },
    [ListEffect.getTickets (getTicketsParams
      { category := orUndefined s.filterCategory,
        priority := orUndefined s.filterPriority,
        status := orUndefined s.filterStatus,
        search := orUndefined s.search })])

/-- Continuation of `fetchTickets` when `getTickets` resolves with `data`. -/
def fetchTicketsResolved (s : ListState) (data : List Ticket) :
    ListState × List ListEffect :=
  ({ s with tickets := data, loading := false }, [])

/-- Continuation of `fetchTickets` when `getTickets` rejects. -/
def fetchTicketsRejected (s : ListState) : ListState × List ListEffect :=
  ({ s with loading := false },
    [ListEffect.addToast (js "Failed to load tickets") (js "error")])

/-- Synchronous part of `handleStatusChange`, up to `await updateTicket(...)`. -/
def handleStatusChange (s : ListState) (ticketId : Nat) (newStatus : JsString) :
    ListState × List ListEffect :=
  (s, [ListEffect.updateTicket ticketId newStatus])

/-- The updater handed to `setTickets` in `handleStatusChange`. -/
def rewriteStatus (ticketId : Nat) (newStatus : JsString) (prev : List Ticket) :
    List Ticket :=
  prev.map (fun t => if t.id = ticketId then { t with status := newStatus } else t)

/-- Continuation of `handleStatusChange` when `updateTicket` resolves. -/
def handleStatusChangeResolved (s : ListState) (ticketId : Nat) (newStatus : JsString) :
    ListState × List ListEffect :=
  ({ s with tickets := rewriteStatus ticketId newStatus s.tickets },
    [ListEffect.onStatusChange,
     ListEffect.addToast
       (js "Ticket status updated to " ++ replaceFirst 95 32 newStatus) (js "success")])

/-- Continuation of `handleStatusChange` when `updateTicket` rejects. -/
def handleStatusChangeRejected (s : ListState) : ListState × List ListEffect :=
  (s, [ListEffect.addToast (js "Failed to update ticket status") (js "error")])

/-- The `clearFilters` handler: five setters, batched into one update. -/
def clearFilters (s : ListState) : ListState :=
  { s with filterCategory := [], filterPriority := [], filterStatus := [],
           searchInput := [], search := [] }

/-- The value `hasActiveFilters`; the Clear button is rendered only when it
is truthy. -/
def hasActiveFilters (s : ListState) : Bool :=
  truthy s.filterCategory || truthy s.filterPriority || truthy s.filterStatus
    || truthy s.search

/-- The values on which the fetch effect depends: those `fetchTickets` closes
over through `useCallback`, and the prop `refreshKey`.  The prop `addToast`
is created once by `useCallback(..., [])` and never changes. -/
def fetchDeps (s : ListState) (refreshKey : Nat) :
    JsString × JsString × JsString × JsString × Nat :=
  (s.filterCategory, s.filterPriority, s.filterStatus, s.search, refreshKey)

/-- The effects React runs after the render that follows a change of the
slots from `before` to `after`, at clock reading `now`.  The fetch effect
(`[fetchTickets, refreshKey]`) runs when one of its dependencies changed and
calls `fetchTickets`.  The debounce effect (`[searchInput]`) runs when
`searchInput` changed: its cleanup clears the pending timeout and it sets a
new one, due 400 ms later.  The render caused by `setLoading(true)` changes
no dependency and runs no effect. -/
def afterRender (now : Nat) (before after : ListState) (keyBefore keyAfter : Nat) :
    ListState × List ListEffect :=
  let fetched :=
    if fetchDeps before keyBefore = fetchDeps after keyAfter then (after, [])
    else fetchTickets after
  (if after.searchInput = before.searchInput then fetched.1
   else { fetched.1 with searchTimer := some (now + 400, after.searchInput) },
   fetched.2)

/-- The list requests among the effects of a handler or a render. -/
def listRequests (effects : List ListEffect) : List TicketQuery :=
  effects.filterMap fun e =>
    match e with
    | ListEffect.getTickets q => some q
    | _ => none

/-! ### Overlapping list requests -/

/-- What happens to list requests over time: a request is issued by the
fetch effect, or the promise of an earlier request settles.  `req` names the
request. -/
inductive FetchEvent where
  | issued (req : Nat)
  | resolved (req : Nat) (data : List Ticket)
  | rejected (req : Nat)
  deriving DecidableEq, Repr

/-- One event on the list: the code does not look at which request a
response belongs to. -/
def fetchStep (s : ListState) : FetchEvent → ListState × List ListEffect
  | FetchEvent.issued _ => fetchTickets s
  | FetchEvent.resolved _ data => fetchTicketsResolved s data
  | FetchEvent.rejected _ => fetchTicketsRejected s

/-- The list after a sequence of events, in arrival order. -/
def fetchTrace (s : ListState) (evs : List FetchEvent) : ListState :=
  evs.foldl (fun acc e => (fetchStep acc e).1) s

/-- The request issued last in a trace. -/
def lastIssued : List FetchEvent → Option Nat
  | [] => none
  | FetchEvent.issued r :: rest => (lastIssued rest).orElse (fun _ => some r)
  | _ :: rest => lastIssued rest

/-- The data with which request `req` resolved in a trace. -/
def responseOf (req : Nat) : List FetchEvent → Option (List Ticket)
  | [] => none
  | FetchEvent.resolved r data :: rest =>
    if r = req then some data else responseOf req rest
  | _ :: rest => responseOf req rest

/-- The data of the response that resolved last in a trace. -/
def lastResolved : List FetchEvent → Option (List Ticket)
  | [] => none
  | FetchEvent.resolved _ data :: rest => (lastResolved rest).orElse (fun _ => some data)
  | _ :: rest => lastResolved rest

/-! ### The debounced search -/

/-- The `onChange` handler of the search box, `setSearchInput(text)`, followed
by the render it causes.  Setting the value the slot already holds changes
nothing: the dependency `[searchInput]` of the debounce effect is unchanged
and the effect does not run.  Otherwise the cleanup of the effect clears the
pending timeout and the effect sets a new one, due 400 ms later, whose
callback closes over the new value. -/
def setSearchInput (now : Nat) (s : ListState) (text : JsString) : ListState :=
  if text = s.searchInput then s
  else { s with searchInput := text, searchTimer := some (now + 400, text) }

/-- The callback of the debounce timeout: `setSearch(searchInput)`. -/
def searchTimerFired (s : ListState) (value : JsString) : ListState :=
  { s with search := value, searchTimer := none }

/-- The list under a clock: the clock reading, the component, and the log of
the commits made so far by debounce callbacks (due time and value). -/
structure ListClock where
  now : Nat
  st : ListState
  commits : List (Nat × JsString)
  deriving DecidableEq, Repr

/-- Let `dt` milliseconds pass: a pending debounce timeout that falls due in
that time runs its callback. -/
def advance (w : ListClock) (dt : Nat) : ListClock :=
  match w.st.searchTimer with
  | some (due, value) =>
    if due ≤ w.now + dt then
      { now := w.now + dt, st := searchTimerFired w.st value,
        commits := w.commits ++ [(due, value)] }
    else { w with now := w.now + dt }
  | none => { w with now := w.now + dt }

/-- A `setSearchInput` call at the current clock reading. -/
def typeSearch (w : ListClock) (text : JsString) : ListClock :=
  { w with st := setSearchInput w.now w.st text }

/-- A click on the Clear button at the current clock reading, and the render
that follows. -/
def clearSearch (w : ListClock) : ListClock :=
  { w with st := (afterRender w.now w.st (clearFilters w.st) 0 0).1 }

/-- A sequence of `setSearchInput` calls: the first is made now, each later
one `gap` milliseconds after the one before it. -/
def runCalls (w : ListClock) (first : JsString) (rest : List (Nat × JsString)) :
    ListClock :=
  rest.foldl (fun acc c => typeSearch (advance acc c.1) c.2) (typeSearch w first)

/-- The clock reading of the last call of a sequence whose first call is made
at `now`. -/
def lastCallTime (now : Nat) : List (Nat × JsString) → Nat
  | [] => now
  | c :: rest => lastCallTime (now + c.1) rest

/-- The value of the last call of a sequence. -/
def lastCallValue (first : JsString) : List (Nat × JsString) → JsString
  | [] => first
  | c :: rest => lastCallValue c.2 rest

/-- Every call of the sequence sets a value other than the one the raw
search input holds when the call is made. -/
def eachChanges (current : JsString) : List (Nat × JsString) → Bool
  | [] => true
  | c :: rest => c.2 != current && eachChanges c.2 rest

/-! ## App.jsx -/

/-- An entry of the `toasts` slot. -/
structure Toast where
  id : Nat
  message : JsString
  type : JsString
  deriving DecidableEq, Repr

/-- The `useState` slots of `App`, and the pending timeouts set by
`addToast`: due time and the `id` the callback closed over. -/
structure AppState where
  theme : JsString
  activeTab : JsString
  refreshKey : Nat
  toasts : List Toast
  toastTimers : List (Nat × Nat)
  deriving DecidableEq, Repr

/-- The slots at mount. -/
def AppState.initial : AppState :=
  { theme := js "dark", activeTab := js "submit", refreshKey := 0, toasts := [],
    toastTimers := [] }

/-- The function `triggerRefresh`. -/
def triggerRefresh (a : AppState) : AppState :=
  { a with refreshKey := a.refreshKey + 1 }

/-- The function `addToast(message, type = 'success')` called when `Date.now()`
reads `now`; `type` is `none` when the argument is omitted. -/
def addToast (now : Nat) (a : AppState) (message : JsString) (type : Option JsString) :
    AppState :=
  let id := now
  { a with toasts := a.toasts ++ [{ id := id, message := message,
                                    type := type.getD (js "success") }],
           toastTimers := a.toastTimers ++ [(now + 3500, id)] }

/-- The callback of the timeout set by `addToast` for `id`. -/
def toastExpired (a : AppState) (id : Nat) : AppState :=
  { a with toasts := a.toasts.filter (fun t => t.id != id) }

/-- The `k`-th pending toast timeout falls due and runs its callback. -/
def fireToastTimer (a : AppState) (k : Nat) : AppState :=
  match a.toastTimers.get? k with
  | some (_, id) => { toastExpired a id with toastTimers := a.toastTimers.eraseIdx k }
  | none => a

/-- The function `handleTicketCreated`, the `onTicketCreated` prop of the form. -/
def handleTicketCreated (now : Nat) (a : AppState) : AppState :=
  let a := triggerRefresh a
  let a := addToast now a (js "Ticket created successfully!") (some (js "success"))
  { a with activeTab := js "tickets" }

/-- What `App` does with an effect of `TicketList`: the props `addToast` and
`onStatusChange`; remote calls do not touch `App`. -/
def appOnListEffect (now : Nat) (a : AppState) : ListEffect → AppState
  | ListEffect.addToast message type => addToast now a message (some type)
  | ListEffect.onStatusChange => triggerRefresh a
  | _ => a

/-- The effects of one handler of `TicketList`, in order. -/
def appOnListEffects (now : Nat) (a : AppState) (effects : List ListEffect) : AppState :=
  effects.foldl (appOnListEffect now) a

/-- What `App` does with an effect of `TicketForm`: the prop
`onTicketCreated`; remote calls do not touch `App`. -/
def appOnFormEffect (now : Nat) (a : AppState) : FormEffect → AppState
  | FormEffect.onTicketCreated => handleTicketCreated now a
  | _ => a

/-- The effects of one handler of `TicketForm`, in order. -/
def appOnFormEffects (now : Nat) (a : AppState) (effects : List FormEffect) : AppState :=
  effects.foldl (appOnFormEffect now) a

/-! ## Auxiliary notions of the statements -/

/-- The state of the debounce between calls: the raw input holds `v` and the
only pending timeout is the one set by the latest call. -/
def Armed (w : ListClock) (v : JsString) : Prop :=
  w.st.searchInput = v ∧ w.st.searchTimer = some (w.now + 400, v)

/-- The create calls among the effects of a handler. -/
def createCalls (effects : List FormEffect) : List TicketData :=
  effects.filterMap fun e =>
    match e with
    | FormEffect.createTicket d => some d
    | _ => none


/-- The kinds of the notifications pushed among the effects of a handler of
the list. -/
def toastKinds (effects : List ListEffect) : List JsString :=
  effects.filterMap fun e =>
    match e with
    | ListEffect.addToast _ type => some type
    | _ => none

/-- How a filter dimension travels in a list request in the words of the
specification: carried with its value when it is not empty, left out when it
is. -/
def carriedFilter (v : JsString) : Option JsString :=
  if v = [] then none else some v

/-- The slots of the form with an all-empty draft, no error, no suggestion
badge and no create call in flight. -/
def clearedForm (isClassifying : Bool) : FormState :=
  { title := [], description := [], category := [], priority := [],
    isSubmitting := false, isClassifying := isClassifying, classifySuggested := false,
    error := [] }

/-- A sequence of pushes, each with the clock reading at which it is made,
its message and its kind. -/
def pushAll (a : AppState) (pushes : List (Nat × JsString × JsString)) : AppState :=
  pushes.foldl (fun acc p => addToast p.1 acc p.2.1 (some p.2.2)) a

/-- The notification a push creates. -/
def toastOf (p : Nat × JsString × JsString) : Toast :=
  { id := p.1, message := p.2.1, type := p.2.2 }

/-- The in-flight flag tells whether a create call is in flight, and there is
never more than one. -/
def FlagTracksCreate (w : FormRun) : Prop :=
  (w.pending = 0 ∧ w.st.isSubmitting = false) ∨ (w.pending = 1 ∧ w.st.isSubmitting = true)

/-! ## States and traces of the running examples -/

/-- A draft with an empty title and an empty category. -/
def draftNoTitleNoCategory : FormState :=
  { FormState.initial with description := js "Cannot log in", priority := js "high" }

/-- A draft on which classification was requested and whose category the user
then picked by hand while the request was in flight. -/
def draftCategoryPickedInFlight : FormState :=
  categoryChange
    (handleClassify
      (descriptionChange FormState.initial (js "I get error 500 when logging in"))).1
    (js "billing")

/-- The response that then arrives. -/
def suggestTechnicalHigh : ClassifyResult :=
  { suggested_category := some (js "technical"), suggested_priority := some (js "high") }

/-- A ticket of the running examples. -/
def ticketOf (id : Nat) (title status : JsString) : Ticket :=
  { id := id, title := title, description := js "I get error 500 when logging in",
    category := js "technical", priority := js "high", status := status,
    created_at := js "2024-01-01T00:00:00Z" }

/-- Request 0 (A) is issued, request 1 (B) is issued before A resolves, B
resolves, then A resolves. -/
def staleResponseTrace : List FetchEvent :=
  [FetchEvent.issued 0, FetchEvent.issued 1,
   FetchEvent.resolved 1 [ticketOf 2 (js "B") (js "open")],
   FetchEvent.resolved 0 [ticketOf 1 (js "A") (js "open")]]

/-- A list holding ticket 7 with status open. -/
def listWithTicket7 : ListState :=
  { ListState.initial 0 with
    tickets := [ticketOf 7 (js "Cannot log in") (js "open")], loading := false,
    searchTimer := none }

/-- The user fills in the form and submits it. -/
def fillAndSubmit : List FormEvent :=
  [FormEvent.titleInput (js "Cannot log in"),
   FormEvent.descriptionInput (js "I get error 500 when logging in"),
   FormEvent.categoryPick (js "technical"), FormEvent.priorityPick (js "high"),
   FormEvent.submit]

/-- The list 1000 ms after its mount at clock reading 0: the timeout set at
mount has run. -/
def listAfterMount : ListClock :=
  advance { now := 0, st := ListState.initial 0, commits := [] } 1000

/-- Two notifications pushed while `Date.now()` reads 1000. -/
def twoToastsSameReading : AppState :=
  addToast 1000
    (addToast 1000 AppState.initial (js "Ticket status updated to resolved")
      (some (js "success")))
    (js "Failed to load tickets") (some (js "error"))

/-- A draft with a long description and nothing selected. -/
def draftDescribed : FormState :=
  descriptionChange FormState.initial (js "  I get error 500 when logging in with SSO ")

/-- A draft whose description has seven code units. -/
def draftShortDescription : FormState :=
  descriptionChange FormState.initial (js "Help me")

/-- A valid draft with white space around title and description. -/
def draftValid : FormState :=
  { FormState.initial with
    title := js " Cannot log in ", description := js "I get error 500 when logging in\n",
    category := js "technical", priority := js "high" }

/-- The described draft after a classification whose suggestions were
applied: category technical, priority high, both badges shown. -/
def draftSuggested : FormState :=
  handleClassifyResolved (handleClassify draftDescribed).1 suggestTechnicalHigh

/-- A list with a category filter and a committed search. -/
def listFiltered : ListState :=
  { ListState.initial 0 with
    loading := false, filterCategory := js "billing", search := js "login",
    searchInput := js "login", searchTimer := none }

/-- The list with a category filter and a committed search, at clock reading
5000. -/
def listFilteredAt5000 : ListClock :=
  { now := 5000, st := listFiltered, commits := [] }

/-- A list holding ticket 3 with status in progress. -/
def listWithTicket3 : ListState :=
  { ListState.initial 0 with
    tickets := [ticketOf 3 (js "Invoice is wrong") (js "in_progress")], loading := false,
    searchTimer := none }

/-- A list holding ticket 7 with status open and ticket 8 with status in
progress. -/
def listWithTickets7And8 : ListState :=
  { ListState.initial 0 with
    tickets := [ticketOf 7 (js "Cannot log in") (js "open"),
                ticketOf 8 (js "Invoice is wrong") (js "in_progress")],
    loading := false, searchTimer := none }

/-! ## Theorems -/

/-! ### Shared facts -/

theorem truthy_eq_false_iff (v : JsString) : truthy v = false ↔ v = [] := by
  cases v <;> simp [truthy]

theorem truthy_eq_true_iff (v : JsString) : truthy v = true ↔ v ≠ [] := by
  cases v <;> simp [truthy]

/-! ### Validation on submit -/

/-- Claim C1: `handleSubmit` checks title (trimmed), description (trimmed),
category, priority in that order; the error slot receives the message of the
first check that fails, and then neither `createTicket` nor the coordinator
callback runs, whatever the create call would have answered. -/
theorem handleSubmit_first_failing_check (s : FormState) (o : CreateOutcome) :
    (trim s.title = [] →
      handleSubmit s = ({ s with error := js "Title is required." }, []) ∧
      submitRun s o = ({ s with error := js "Title is required." }, [])) ∧
    (trim s.title ≠ [] → trim s.description = [] →
      handleSubmit s = ({ s with error := js "Description is required." }, []) ∧
      submitRun s o = ({ s with error := js "Description is required." }, [])) ∧
    (trim s.title ≠ [] → trim s.description ≠ [] → s.category = [] →
      handleSubmit s = ({ s with error := js "Please select a category." }, []) ∧
      submitRun s o = ({ s with error := js "Please select a category." }, [])) ∧
    (trim s.title ≠ [] → trim s.description ≠ [] → s.category ≠ [] → s.priority = [] →
      handleSubmit s = ({ s with error := js "Please select a priority level." }, []) ∧
      submitRun s o = ({ s with error := js "Please select a priority level." }, [])) := by
  refine ⟨fun h1 => ?_, fun h1 h2 => ?_, fun h1 h2 h3 => ?_, fun h1 h2 h3 h4 => ?_⟩
  · have e : handleSubmit s = ({ s with error := js "Title is required." }, []) := by
      simp [handleSubmit, truthy_eq_false_iff, h1]
    exact ⟨e, by simp [submitRun, e]⟩
  · have e : handleSubmit s = ({ s with error := js "Description is required." }, []) := by
      simp [handleSubmit, truthy_eq_false_iff, h1, h2]
    exact ⟨e, by simp [submitRun, e]⟩
  · have e : handleSubmit s = ({ s with error := js "Please select a category." }, []) := by
      simp [handleSubmit, truthy_eq_false_iff, h1, h2, h3]
    exact ⟨e, by simp [submitRun, e]⟩
  · have e : handleSubmit s =
        ({ s with error := js "Please select a priority level." }, []) := by
      simp [handleSubmit, truthy_eq_false_iff, h1, h2, h3, h4]
    exact ⟨e, by simp [submitRun, e]⟩

/-- Witness for C1: with an empty title and an empty category the error is the
title error and nothing is sent. -/
theorem handleSubmit_first_failing_check_witness :
    trim draftNoTitleNoCategory.title = [] ∧ draftNoTitleNoCategory.category = [] ∧
    handleSubmit draftNoTitleNoCategory =
      ({ draftNoTitleNoCategory with error := js "Title is required." }, []) :=
  ⟨by decide, by decide,
    ((handleSubmit_first_failing_check draftNoTitleNoCategory
      CreateOutcome.resolved).1 (by decide)).1⟩

/-! ### Applying a classification response -/

/-- Counterexample to C2 as stated: the category the user set while the request
was in flight is overwritten by the suggestion. -/
theorem classify_response_overwrites_set_category :
    draftCategoryPickedInFlight.category = js "billing" ∧
    (handleClassifyResolved draftCategoryPickedInFlight suggestTechnicalHigh).category
      = js "technical" ∧
    (handleClassifyResolved draftCategoryPickedInFlight suggestTechnicalHigh).category
      ≠ draftCategoryPickedInFlight.category := by
  decide

theorem handleClassifyResolved_category (s : FormState) (r : ClassifyResult) :
    (handleClassifyResolved s r).category =
      if truthyOpt r.suggested_category then r.suggested_category.getD [] else s.category := by
  cases h1 : truthyOpt r.suggested_category <;>
    cases h2 : truthyOpt r.suggested_priority <;>
    simp [handleClassifyResolved, h1, h2]

theorem handleClassifyResolved_priority (s : FormState) (r : ClassifyResult) :
    (handleClassifyResolved s r).priority =
      if truthyOpt r.suggested_priority then r.suggested_priority.getD [] else s.priority := by
  cases h1 : truthyOpt r.suggested_category <;>
    cases h2 : truthyOpt r.suggested_priority <;>
    simp [handleClassifyResolved, h1, h2]

/-- Claim C2, amended: a non-empty suggested category replaces the category
whatever the category is when the response arrives, and an absent or empty
suggestion leaves it as it is; the same holds for priority, independently. -/
theorem handleClassifyResolved_applies_suggestions (s : FormState) (r : ClassifyResult) :
    (∀ c, r.suggested_category = some c → c ≠ [] →
      (handleClassifyResolved s r).category = c) ∧
    (truthyOpt r.suggested_category = false →
      (handleClassifyResolved s r).category = s.category) ∧
    (∀ p, r.suggested_priority = some p → p ≠ [] →
      (handleClassifyResolved s r).priority = p) ∧
    (truthyOpt r.suggested_priority = false →
      (handleClassifyResolved s r).priority = s.priority) := by
  refine ⟨fun c hc hne => ?_, fun hc => ?_, fun p hp hne => ?_, fun hp => ?_⟩
  · have h : truthyOpt r.suggested_category = true := by
      simpa [hc, truthyOpt, truthy_eq_true_iff] using hne
    rw [handleClassifyResolved_category, if_pos h, hc]; rfl
  · simp [handleClassifyResolved_category, hc]
  · have h : truthyOpt r.suggested_priority = true := by
      simpa [hp, truthyOpt, truthy_eq_true_iff] using hne
    rw [handleClassifyResolved_priority, if_pos h, hp]; rfl
  · simp [handleClassifyResolved_priority, hp]

/-- Witness for the amended C2: on the draft whose category was set by hand,
the suggestion replaces the category and fills the unset priority. -/
theorem handleClassifyResolved_applies_suggestions_witness :
    (handleClassifyResolved draftCategoryPickedInFlight suggestTechnicalHigh).category
      = js "technical" ∧
    (handleClassifyResolved draftCategoryPickedInFlight suggestTechnicalHigh).priority
      = js "high" :=
  ⟨(handleClassifyResolved_applies_suggestions draftCategoryPickedInFlight
      suggestTechnicalHigh).1 (js "technical") rfl (by decide),
   (handleClassifyResolved_applies_suggestions draftCategoryPickedInFlight
      suggestTechnicalHigh).2.2.1 (js "high") rfl (by decide)⟩

/-! ### Overlapping list requests -/

/-- Counterexample to C3 as stated: B is the request issued last and resolved
with its own data, yet after all responses the collection is the data of A. -/
theorem stale_response_overwrites_collection :
    lastIssued staleResponseTrace = some 1 ∧
    responseOf 1 staleResponseTrace = some [ticketOf 2 (js "B") (js "open")] ∧
    (fetchTrace (ListState.initial 0) staleResponseTrace).tickets
      = [ticketOf 1 (js "A") (js "open")] ∧
    some (fetchTrace (ListState.initial 0) staleResponseTrace).tickets
      ≠ responseOf 1 staleResponseTrace := by
  decide

theorem fetchTrace_cons (s : ListState) (e : FetchEvent) (evs : List FetchEvent) :
    fetchTrace s (e :: evs) = fetchTrace (fetchStep s e).1 evs := rfl

/-- Claim C3, amended: after any interleaving of issued list requests and
their responses, the held collection is the data of the response that
resolved last, whichever request it answers; with no resolved response the
collection is as before. -/
theorem fetchTrace_last_resolved_wins (s : ListState) (evs : List FetchEvent) :
    (fetchTrace s evs).tickets = (lastResolved evs).getD s.tickets := by
  induction evs generalizing s with
  | nil => rfl
  | cons e rest ih =>
    rw [fetchTrace_cons, ih]
    cases e with
    | issued r => simp [fetchStep, fetchTickets, lastResolved]
    | resolved r data =>
      cases h : lastResolved rest <;>
        simp [fetchStep, fetchTicketsResolved, lastResolved, h, Option.orElse]
    | rejected r => simp [fetchStep, fetchTicketsRejected, lastResolved]

/-! ### Status change -/

/-- Counterexample to C4 as stated: in the state observable before
`updateTicket` settles, and after it fails, ticket 7 still has status open. -/
theorem status_not_rewritten_before_remote_settles :
    ((handleStatusChange listWithTicket7 7 (js "resolved")).1.tickets.map Ticket.status)
      = [js "open"] ∧
    ((handleStatusChangeRejected
        (handleStatusChange listWithTicket7 7 (js "resolved")).1).1.tickets.map Ticket.status)
      = [js "open"] ∧
    js "open" ≠ js "resolved" := by
  decide

/-- Claim C4, amended: `handleStatusChange` first issues `updateTicket` and
leaves the collection as it is; the status of the ticket with that id is
rewritten to `newStatus` only when the remote call resolves, and a failed call
leaves the collection unchanged. -/
theorem handleStatusChange_rewrites_after_success (s : ListState) (ticketId : Nat)
    (newStatus : JsString) :
    handleStatusChange s ticketId newStatus
      = (s, [ListEffect.updateTicket ticketId newStatus]) ∧
    (handleStatusChangeRejected s).1 = s ∧
    (handleStatusChangeResolved s ticketId newStatus).1.tickets
      = rewriteStatus ticketId newStatus s.tickets ∧
    (∀ t ∈ (handleStatusChangeResolved s ticketId newStatus).1.tickets,
      t.id = ticketId → t.status = newStatus) := by
  refine ⟨rfl, rfl, rfl, ?_⟩
  intro t ht hid
  simp only [handleStatusChangeResolved, rewriteStatus, List.mem_map] at ht
  obtain ⟨u, _, hu⟩ := ht
  by_cases h : u.id = ticketId
  · rw [if_pos h] at hu
    rw [← hu]
  · rw [if_neg h] at hu
    rw [← hu] at hid
    exact absurd hid h

/-- Witness for the amended C4: on the list holding ticket 7 the call leaves
the list as it is, and once the remote call has resolved ticket 7 has status
resolved. -/
theorem handleStatusChange_rewrites_after_success_witness :
    (handleStatusChange listWithTicket7 7 (js "resolved")).1 = listWithTicket7 ∧
    (handleStatusChangeResolved listWithTicket7 7 (js "resolved")).1.tickets
      = [ticketOf 7 (js "Cannot log in") (js "resolved")] :=
  ⟨congrArg Prod.fst
      (handleStatusChange_rewrites_after_success listWithTicket7 7 (js "resolved")).1,
   (handleStatusChange_rewrites_after_success listWithTicket7 7 (js "resolved")).2.2.1.trans
      (by decide)⟩

/-! ### Submitting twice -/

theorem handleSubmit_issues_or_not (s : FormState) :
    ((handleSubmit s).2 = [] ∧ (handleSubmit s).1.isSubmitting = s.isSubmitting) ∨
    (∃ d, (handleSubmit s).2 = [FormEffect.createTicket d] ∧
      (handleSubmit s).1.isSubmitting = true) := by
  unfold handleSubmit
  simp only
  split_ifs
  · exact Or.inl ⟨rfl, rfl⟩
  · exact Or.inl ⟨rfl, rfl⟩
  · exact Or.inl ⟨rfl, rfl⟩
  · exact Or.inl ⟨rfl, rfl⟩
  · exact Or.inr ⟨_, rfl, rfl⟩

theorem handleClassify_isSubmitting (s : FormState) :
    (handleClassify s).1.isSubmitting = s.isSubmitting := by
  unfold handleClassify
  split <;> rfl

theorem handleDescriptionBlur_isSubmitting (s : FormState) :
    (handleDescriptionBlur s).1.isSubmitting = s.isSubmitting := by
  unfold handleDescriptionBlur
  split
  · exact handleClassify_isSubmitting s
  · rfl

theorem classifyClick_isSubmitting (s : FormState) :
    (classifyClick s).1.isSubmitting = s.isSubmitting := by
  unfold classifyClick
  split
  · rfl
  · exact handleClassify_isSubmitting s

theorem handleClassifyResolved_isSubmitting (s : FormState) (r : ClassifyResult) :
    (handleClassifyResolved s r).isSubmitting = s.isSubmitting := by
  cases h1 : truthyOpt r.suggested_category <;>
    cases h2 : truthyOpt r.suggested_priority <;>
    simp [handleClassifyResolved, h1, h2]

theorem handleSubmitSettled_isSubmitting (s : FormState) (o : CreateOutcome) :
    (handleSubmitSettled s o).1.isSubmitting = false := by
  cases o <;> rfl

theorem flagTracksCreate_of_same (w v : FormRun) (hp : v.pending = w.pending)
    (hs : v.st.isSubmitting = w.st.isSubmitting) (h : FlagTracksCreate w) :
    FlagTracksCreate v := by
  unfold FlagTracksCreate at h ⊢
  rw [hp, hs]
  exact h

theorem submitClick_of_disabled (s : FormState) (h : s.isSubmitting = true) :
    submitClick s = (s, []) := by
  simp [submitClick, submitDisabled, h]

theorem formStep_submit_tracks (w : FormRun) (h : FlagTracksCreate w) :
    FlagTracksCreate (formStep w FormEvent.submit).1 := by
  rcases h with ⟨hp, hs⟩ | ⟨hp, hs⟩
  · by_cases hr : requiredMissing w.st = true
    · have e : submitClick w.st = (w.st, []) := by
        simp [submitClick, hr]
      simp only [formStep, e]
      exact Or.inl ⟨by simpa using hp, hs⟩
    · have e : submitClick w.st = handleSubmit w.st := by
        simp [submitClick, submitDisabled, hs, hr]
      simp only [formStep, e]
      rcases handleSubmit_issues_or_not w.st with ⟨h2, h1⟩ | ⟨d, h2, h1⟩
      · rw [h2]
        exact Or.inl ⟨by simpa using hp, by rw [h1, hs]⟩
      · rw [h2]
        exact Or.inr ⟨by simp [hp], h1⟩
  · simp only [formStep, submitClick_of_disabled w.st hs]
    exact Or.inr ⟨by simpa using hp, hs⟩

theorem formStep_tracks (w : FormRun) (e : FormEvent) (h : FlagTracksCreate w) :
    FlagTracksCreate (formStep w e).1 := by
  cases e with
  | titleInput v => exact flagTracksCreate_of_same w _ rfl rfl h
  | descriptionInput v => exact flagTracksCreate_of_same w _ rfl rfl h
  | categoryPick v => exact flagTracksCreate_of_same w _ rfl rfl h
  | priorityPick v => exact flagTracksCreate_of_same w _ rfl rfl h
  | descriptionBlur =>
    exact flagTracksCreate_of_same w _ rfl (handleDescriptionBlur_isSubmitting w.st) h
  | reclassify =>
    exact flagTracksCreate_of_same w _ rfl (classifyClick_isSubmitting w.st) h
  | classifyResolved r =>
    exact flagTracksCreate_of_same w _ rfl (handleClassifyResolved_isSubmitting w.st r) h
  | classifyRejected => exact flagTracksCreate_of_same w _ rfl rfl h
  | submit => exact formStep_submit_tracks w h
  | createSettled o =>
    rcases h with ⟨hp, hs⟩ | ⟨hp, hs⟩
    · simp only [formStep, hp, if_true]
      exact Or.inl ⟨hp, hs⟩
    · have hne : ¬ w.pending = 0 := by omega
      simp only [formStep, if_neg hne]
      exact Or.inl ⟨by simp [hp], handleSubmitSettled_isSubmitting w.st o⟩

theorem formTrace_tracks (evs : List FormEvent) :
    ∀ w : FormRun, FlagTracksCreate w → FlagTracksCreate (formTrace w evs) := by
  induction evs with
  | nil => intro w h; exact h
  | cons e rest ih =>
    intro w h
    exact ih (formStep w e).1 (formStep_tracks w e h)

/-- Claim C5: over every sequence of events on a mounted form, a create call
is in flight exactly while `isSubmitting` is true and never more than one is;
while one is in flight a further submit is a no-op: the submit button is
disabled, `handleSubmit` does not run, no second create call is issued and no
slot changes, whatever the draft holds. -/
theorem submit_in_flight_is_noop (evs : List FormEvent) :
    (formTrace FormRun.mounted evs).pending ≤ 1 ∧
    (0 < (formTrace FormRun.mounted evs).pending ↔
      (formTrace FormRun.mounted evs).st.isSubmitting = true) ∧
    (0 < (formTrace FormRun.mounted evs).pending →
      formStep (formTrace FormRun.mounted evs) FormEvent.submit
        = (formTrace FormRun.mounted evs, [])) := by
  have h : FlagTracksCreate (formTrace FormRun.mounted evs) :=
    formTrace_tracks evs FormRun.mounted (Or.inl ⟨rfl, rfl⟩)
  rcases h with ⟨hp, hs⟩ | ⟨hp, hs⟩
  · refine ⟨by omega, ?_, fun h0 => ?_⟩
    · rw [hp, hs]; simp
    · omega
  · refine ⟨by omega, ?_, fun _ => ?_⟩
    · rw [hp, hs]; simp
    · simp [formStep, submitClick_of_disabled _ hs]

/-- Witness for C5: the user fills in the form and submits it; one create
call is in flight, and a second submit issues nothing and changes nothing. -/
theorem submit_in_flight_is_noop_witness :
    (formTrace FormRun.mounted fillAndSubmit).pending = 1 ∧
    formStep (formTrace FormRun.mounted fillAndSubmit) FormEvent.submit
      = (formTrace FormRun.mounted fillAndSubmit, []) :=
  ⟨by decide, (submit_in_flight_is_noop fillAndSubmit).2.2 (by decide)⟩


/-! ### The debounced search -/

/-- Counterexample to C6 as stated: three `setSearchInput` calls, each less
than 400 ms after the one before.  At 5000 the user empties the search box;
at 5300 the user clicks Clear, rendered because a filter is set, and
`clearFilters` calls `setSearchInput` with the empty string the box already
holds, which does not restart the timeout; at 5600 the user types b.  The
pending commit of the first call is not cancelled by the second and fires at
5400, 100 ms after it, and a second commit follows at 6000. -/
theorem debounce_clear_on_empty_box_commits_twice :
    listFilteredAt5000.st.searchInput ≠ [] ∧
    hasActiveFilters (advance (typeSearch listFilteredAt5000 []) 300).st = true ∧
    (advance (typeSearch listFilteredAt5000 []) 300).st.searchInput = [] ∧
    (advance
      (typeSearch
        (advance (clearSearch (advance (typeSearch listFilteredAt5000 []) 300)) 300)
        (js "b"))
      1000).commits
      = [(5400, []), (6000, js "b")] := by
  decide

/-- The same on the setter alone: three calls, each less than 400 ms after
the one before, the second repeating the value of the first.  The repeated
value does not restart the timeout, which fires between the second and the
third call: two commits occur, the first 100 ms after the second call. -/
theorem debounce_repeated_value_commits_twice :
    (∀ c ∈ [(300, js "a"), (300, js "b")], c.1 < 400) ∧
    lastCallTime listAfterMount.now [(300, js "a"), (300, js "b")] = 1600 ∧
    (advance (runCalls listAfterMount (js "a") [(300, js "a"), (300, js "b")]) 1000).commits
      = listAfterMount.commits ++ [(1400, js "a"), (2000, js "b")] := by
  decide

theorem afterRender_searchInput (now : Nat) (s : ListState) (text : JsString) (key : Nat) :
    afterRender now s { s with searchInput := text } key key
      = (setSearchInput now s text, []) := by
  by_cases h : text = s.searchInput
  · subst h
    simp [afterRender, setSearchInput, fetchDeps]
  · simp [afterRender, setSearchInput, fetchDeps, h]

theorem advance_before_due (w : ListClock) (dt due : Nat) (v : JsString)
    (ht : w.st.searchTimer = some (due, v)) (hlt : w.now + dt < due) :
    advance w dt = { w with now := w.now + dt } := by
  unfold advance
  rw [ht]
  simp only
  rw [if_neg (by omega)]

theorem advance_at_due (w : ListClock) (dt due : Nat) (v : JsString)
    (ht : w.st.searchTimer = some (due, v)) (hle : due ≤ w.now + dt) :
    advance w dt = { now := w.now + dt, st := searchTimerFired w.st v,
                     commits := w.commits ++ [(due, v)] } := by
  unfold advance
  rw [ht]
  simp only
  rw [if_pos hle]

theorem typeSearch_armed (w : ListClock) (v : JsString) (h : v ≠ w.st.searchInput) :
    Armed (typeSearch w v) v ∧ (typeSearch w v).now = w.now ∧
      (typeSearch w v).commits = w.commits := by
  simp [Armed, typeSearch, setSearchInput, h]

theorem calls_keep_armed (rest : List (Nat × JsString)) :
    ∀ (w : ListClock) (v : JsString), Armed w v → eachChanges v rest = true →
      (∀ c ∈ rest, c.1 < 400) →
      Armed (rest.foldl (fun acc c => typeSearch (advance acc c.1) c.2) w)
          (lastCallValue v rest) ∧
        (rest.foldl (fun acc c => typeSearch (advance acc c.1) c.2) w).now
          = lastCallTime w.now rest ∧
        (rest.foldl (fun acc c => typeSearch (advance acc c.1) c.2) w).commits
          = w.commits := by
  induction rest with
  | nil => intro w v ha _ _; exact ⟨ha, rfl, rfl⟩
  | cons c rest ih =>
    intro w v ha hch hgap
    simp only [eachChanges, Bool.and_eq_true, bne_iff_ne, ne_eq] at hch
    have hc : c.1 < 400 := hgap c (List.mem_cons_self _ _)
    have hadv : advance w c.1 = { w with now := w.now + c.1 } :=
      advance_before_due w c.1 (w.now + 400) v ha.2 (by omega)
    have hne : c.2 ≠ (advance w c.1).st.searchInput := by
      rw [hadv]; simpa [ha.1] using hch.1
    obtain ⟨h1, h2, h3⟩ := typeSearch_armed (advance w c.1) c.2 hne
    obtain ⟨k1, k2, k3⟩ := ih (typeSearch (advance w c.1) c.2) c.2 h1 hch.2
      (fun d hd => hgap d (List.mem_cons_of_mem _ hd))
    refine ⟨k1, ?_, ?_⟩
    · rw [List.foldl_cons, k2, h2, hadv]; rfl
    · rw [List.foldl_cons, k3, h3, hadv]

/-- Claim C6, amended: for every non-empty sequence of `setSearchInput` calls
in which each call changes the raw value and follows the previous one by less
than 400 ms, no commit occurs during the sequence, none occurs in the 400 ms
after the last call, and exactly one commit occurs after that, due 400 ms
after the last call, with the final value; nothing is left pending. -/
theorem debounce_commits_final_value_once (w : ListClock) (first : JsString)
    (rest : List (Nat × JsString)) (T : Nat)
    (hfirst : first ≠ w.st.searchInput) (hchange : eachChanges first rest = true)
    (hgap : ∀ c ∈ rest, c.1 < 400) :
    (runCalls w first rest).commits = w.commits ∧
    (T < 400 → (advance (runCalls w first rest) T).commits = w.commits) ∧
    (400 ≤ T →
      (advance (runCalls w first rest) T).commits
        = w.commits ++ [(lastCallTime w.now rest + 400, lastCallValue first rest)] ∧
      (advance (runCalls w first rest) T).st.search = lastCallValue first rest ∧
      (advance (runCalls w first rest) T).st.searchTimer = none) := by
  obtain ⟨h1, h2, h3⟩ := typeSearch_armed w first hfirst
  obtain ⟨k1, k2, k3⟩ := calls_keep_armed rest (typeSearch w first) first h1 hchange hgap
  have hc : (runCalls w first rest).commits = w.commits := by
    unfold runCalls; rw [k3, h3]
  have hn : (runCalls w first rest).now = lastCallTime w.now rest := by
    unfold runCalls; rw [k2, h2]
  have ht : (runCalls w first rest).st.searchTimer
      = some ((runCalls w first rest).now + 400, lastCallValue first rest) := k1.2
  refine ⟨hc, fun hT => ?_, fun hT => ?_⟩
  · rw [advance_before_due _ T _ _ ht (by omega)]
    exact hc
  · rw [advance_at_due _ T _ _ ht (by omega)]
    simp [hc, hn, searchTimerFired]

/-- Witness for the amended C6: typing a, ab, abc with gaps of 100 ms and 399 ms
commits abc once, 400 ms after the last keystroke. -/
theorem debounce_commits_final_value_once_witness :
    (advance (runCalls listAfterMount (js "a") [(100, js "ab"), (399, js "abc")]) 400).commits
      = listAfterMount.commits ++ [(1899, js "abc")] :=
  ((debounce_commits_final_value_once listAfterMount (js "a")
      [(100, js "ab"), (399, js "abc")] 400 (by decide)
      (by decide) (by decide)).2.2 (by decide)).1

/-! ### Notification ids -/

/-- Claim C7 fails on the code: two notifications pushed at the same clock
reading carry the same id, and when the expiry of the first fires the filter
on that id removes both; the other timeout is still pending. -/
theorem toast_expiry_removes_every_toast_of_same_reading :
    twoToastsSameReading.toasts.map Toast.id = [1000, 1000] ∧
    twoToastsSameReading.toasts.map Toast.message
      = [js "Ticket status updated to resolved", js "Failed to load tickets"] ∧
    twoToastsSameReading.toastTimers = [(4500, 1000), (4500, 1000)] ∧
    (fireToastTimer twoToastsSameReading 0).toasts = [] ∧
    (fireToastTimer twoToastsSameReading 0).toastTimers = [(4500, 1000)] := by
  decide

/-! ### Requesting a classification -/

theorem handleClassify_of_long (s : FormState) (h : 10 ≤ (trim s.description).length) :
    handleClassify s = ({ s with isClassifying := true, classifySuggested := false },
      [FormEffect.classifyTicket s.description]) := by
  have hne : truthy (trim s.description) = true := by
    rw [truthy_eq_true_iff]
    intro h0
    rw [h0] at h
    simp at h
  have hlt : ¬ (trim s.description).length < 10 := by omega
  simp [handleClassify, hne, hlt]

theorem handleClassify_of_short (s : FormState) (h : (trim s.description).length < 10) :
    handleClassify s = (s, []) := by
  simp [handleClassify, h]

/-- Claim C8: on blur of the description field the classify call is issued
exactly once when the trimmed description has at least 10 code units and both
category and priority are unset, and not at all (nothing changes) when the
trimmed description is shorter or either field is set. -/
theorem handleDescriptionBlur_classifies_once (s : FormState) :
    (10 ≤ (trim s.description).length → s.category = [] → s.priority = [] →
      handleDescriptionBlur s =
        ({ s with isClassifying := true, classifySuggested := false },
          [FormEffect.classifyTicket s.description])) ∧
    ((trim s.description).length < 10 ∨ s.category ≠ [] ∨ s.priority ≠ [] →
      handleDescriptionBlur s = (s, [])) := by
  constructor
  · intro hlen hc hp
    have hge : (trim s.description).length ≥ 10 := hlen
    have e : handleDescriptionBlur s = handleClassify s := by
      unfold handleDescriptionBlur
      rw [if_pos]
      simp [hc, hp, truthy, hge]
    rw [e]
    exact handleClassify_of_long s hlen
  · intro h
    rcases h with h | h | h
    · have hge : ¬ (trim s.description).length ≥ 10 := by omega
      simp [handleDescriptionBlur, hge]
    · have ht : truthy s.category = true := (truthy_eq_true_iff _).2 h
      simp [handleDescriptionBlur, ht]
    · have ht : truthy s.priority = true := (truthy_eq_true_iff _).2 h
      simp [handleDescriptionBlur, ht]

/-- Witness for C8: blur on the described draft issues one classify call, and
blur after the category was picked issues none. -/
theorem handleDescriptionBlur_classifies_once_witness :
    (handleDescriptionBlur draftDescribed).2
      = [FormEffect.classifyTicket (js "  I get error 500 when logging in with SSO ")] ∧
    handleDescriptionBlur (categoryChange draftDescribed (js "billing"))
      = (categoryChange draftDescribed (js "billing"), []) :=
  ⟨congrArg Prod.snd ((handleDescriptionBlur_classifies_once draftDescribed).1
      (by decide) rfl rfl),
   (handleDescriptionBlur_classifies_once (categoryChange draftDescribed (js "billing"))).2
      (Or.inr (Or.inl (by decide)))⟩

/-- Counterexample to C9 as stated: the trimmed description is not empty, the
Re-classify button is enabled, and `handleClassify` issues no call. -/
theorem handleClassify_short_description_no_call :
    0 < (trim draftShortDescription.description).length ∧
    classifyDisabled draftShortDescription = false ∧
    handleClassify draftShortDescription = (draftShortDescription, []) := by
  decide

/-- Claim C9, amended: `handleClassify` is guarded by a trimmed length of at
least 10: the classify call is issued, with the description as typed, for
every description whose trimmed length is at least 10, and for every shorter
one nothing is issued and nothing changes. -/
theorem handleClassify_guard (s : FormState) :
    (10 ≤ (trim s.description).length →
      handleClassify s = ({ s with isClassifying := true, classifySuggested := false },
        [FormEffect.classifyTicket s.description])) ∧
    ((trim s.description).length < 10 → handleClassify s = (s, [])) :=
  ⟨handleClassify_of_long s, handleClassify_of_short s⟩

/-- Witness for the amended C9: the call is issued on the described draft. -/
theorem handleClassify_guard_witness :
    10 ≤ (trim draftDescribed.description).length ∧
    (handleClassify draftDescribed).2
      = [FormEffect.classifyTicket draftDescribed.description] :=
  ⟨by decide, congrArg Prod.snd ((handleClassify_guard draftDescribed).1 (by decide))⟩

/-! ### The create call -/

/-- Claim C10: for every draft that passes validation, `handleSubmit` issues
exactly one create call, also over the whole run whatever the outcome, and its
payload is the trimmed title, the trimmed description, and the category and
priority of the draft. -/
theorem handleSubmit_issues_one_create (s : FormState) (o : CreateOutcome)
    (ht : trim s.title ≠ []) (hd : trim s.description ≠ [])
    (hc : s.category ≠ []) (hp : s.priority ≠ []) :
    (handleSubmit s).2 =
      [FormEffect.createTicket
        { title := trim s.title, description := trim s.description,
          category := s.category, priority := s.priority }] ∧
    createCalls (submitRun s o).2 =
      [{ title := trim s.title, description := trim s.description,
         category := s.category, priority := s.priority }] := by
  have e : (handleSubmit s).2 =
      [FormEffect.createTicket
        { title := trim s.title, description := trim s.description,
          category := s.category, priority := s.priority }] := by
    simp [handleSubmit, truthy_eq_false_iff, ht, hd, hc, hp]
  refine ⟨e, ?_⟩
  unfold submitRun
  simp only [e]
  cases o <;> simp [createCalls, handleSubmitSettled]

/-- Witness for C10: the payload of the valid draft carries the trimmed title
and description. -/
theorem handleSubmit_issues_one_create_witness :
    (handleSubmit draftValid).2 =
      [FormEffect.createTicket
        { title := js "Cannot log in", description := js "I get error 500 when logging in",
          category := js "technical", priority := js "high" }] :=
  (handleSubmit_issues_one_create draftValid CreateOutcome.resolved
    (by decide) (by decide) (by decide) (by decide)).1

/-! ### Outcome of the create call -/

theorem handleSubmit_of_valid (s : FormState)
    (ht : trim s.title ≠ []) (hd : trim s.description ≠ [])
    (hc : s.category ≠ []) (hp : s.priority ≠ []) :
    handleSubmit s =
      ({ s with error := [], isSubmitting := true },
        [FormEffect.createTicket
          { title := trim s.title, description := trim s.description,
            category := s.category, priority := s.priority }]) := by
  simp [handleSubmit, truthy_eq_false_iff, ht, hd, hc, hp]

theorem submitRun_of_valid (s : FormState) (o : CreateOutcome)
    (ht : trim s.title ≠ []) (hd : trim s.description ≠ [])
    (hc : s.category ≠ []) (hp : s.priority ≠ []) :
    submitRun s o =
      ((handleSubmitSettled { s with error := [], isSubmitting := true } o).1,
        FormEffect.createTicket
          { title := trim s.title, description := trim s.description,
            category := s.category, priority := s.priority } ::
        (handleSubmitSettled { s with error := [], isSubmitting := true } o).2) := by
  unfold submitRun
  simp only [handleSubmit_of_valid s ht hd hc hp]
  rfl

/-- Claim C11: after a submit whose create call succeeds the draft is
all-empty, the error slot is empty, suggestion-applied and the in-flight flag
are false, whatever the slots held when the call resolved; over the run of a
valid draft the coordinator callback runs exactly once, and it increments the
refresh counter by one, appends one notification of kind success and makes
the ticket list the active view. -/
theorem submit_success_clears_and_signals (s settle : FormState) (now : Nat) (a : AppState)
    (ht : trim s.title ≠ []) (hd : trim s.description ≠ [])
    (hc : s.category ≠ []) (hp : s.priority ≠ []) :
    handleSubmitSettled settle CreateOutcome.resolved
      = (clearedForm settle.isClassifying, [FormEffect.onTicketCreated]) ∧
    (submitRun s CreateOutcome.resolved).1 = clearedForm s.isClassifying ∧
    (submitRun s CreateOutcome.resolved).2 =
      [FormEffect.createTicket
        { title := trim s.title, description := trim s.description,
          category := s.category, priority := s.priority },
       FormEffect.onTicketCreated] ∧
    (appOnFormEffects now a (submitRun s CreateOutcome.resolved).2).refreshKey
      = a.refreshKey + 1 ∧
    (appOnFormEffects now a (submitRun s CreateOutcome.resolved).2).toasts
      = a.toasts ++ [{ id := now, message := js "Ticket created successfully!",
                       type := js "success" }] ∧
    (appOnFormEffects now a (submitRun s CreateOutcome.resolved).2).activeTab
      = js "tickets" := by
  rw [submitRun_of_valid s _ ht hd hc hp]
  refine ⟨rfl, rfl, rfl, rfl, rfl, rfl⟩

/-- Witness for C11: the valid draft, submitted with success at clock reading
5000 while the submit view is active. -/
theorem submit_success_clears_and_signals_witness :
    (submitRun draftValid CreateOutcome.resolved).1 = FormState.initial ∧
    (appOnFormEffects 5000 AppState.initial
        (submitRun draftValid CreateOutcome.resolved).2).toasts
      = [{ id := 5000, message := js "Ticket created successfully!",
           type := js "success" }] :=
  ⟨(submit_success_clears_and_signals draftValid draftValid 5000 AppState.initial
      (by decide) (by decide) (by decide) (by decide)).2.1,
   (submit_success_clears_and_signals draftValid draftValid 5000 AppState.initial
      (by decide) (by decide) (by decide) (by decide)).2.2.2.2.1⟩

/-- Claim C12: after a submit whose create call fails the error slot is the
detail string of the remote error when there is one (a non-empty string) and
the generic message otherwise; title, description, category, priority and
suggestion-applied are as before the submit, the in-flight flag is false, the
coordinator callback is not invoked and nothing changes in `App`, so no
notification is pushed. -/
theorem submit_failure_keeps_draft (s : FormState) (detail : Option JsString)
    (now : Nat) (a : AppState)
    (ht : trim s.title ≠ []) (hd : trim s.description ≠ [])
    (hc : s.category ≠ []) (hp : s.priority ≠ []) :
    (∀ d, detail = some d → d ≠ [] →
      (submitRun s (CreateOutcome.rejected detail)).1 = { s with error := d, isSubmitting := false }) ∧
    (detail = none ∨ detail = some [] →
      (submitRun s (CreateOutcome.rejected detail)).1 =
        { s with error := js "Failed to create ticket. Please try again.",
                 isSubmitting := false }) ∧
    (submitRun s (CreateOutcome.rejected detail)).1.title = s.title ∧
    (submitRun s (CreateOutcome.rejected detail)).1.description = s.description ∧
    (submitRun s (CreateOutcome.rejected detail)).1.category = s.category ∧
    (submitRun s (CreateOutcome.rejected detail)).1.priority = s.priority ∧
    (submitRun s (CreateOutcome.rejected detail)).1.classifySuggested = s.classifySuggested ∧
    (submitRun s (CreateOutcome.rejected detail)).1.isSubmitting = false ∧
    (submitRun s (CreateOutcome.rejected detail)).2 =
      [FormEffect.createTicket
        { title := trim s.title, description := trim s.description,
          category := s.category, priority := s.priority }] ∧
    appOnFormEffects now a (submitRun s (CreateOutcome.rejected detail)).2 = a := by
  rw [submitRun_of_valid s _ ht hd hc hp]
  refine ⟨fun d hdet hne => ?_, fun h => ?_, rfl, rfl, rfl, rfl, rfl, rfl, rfl, rfl⟩
  · have : truthy d = true := (truthy_eq_true_iff d).2 hne
    simp [handleSubmitSettled, hdet, truthyOpt, this]
  · rcases h with h | h <;> simp [handleSubmitSettled, h, truthyOpt, truthy]

/-- Witness for C12: the valid draft rejected with a detail string, and
rejected without one. -/
theorem submit_failure_keeps_draft_witness :
    (submitRun draftValid (CreateOutcome.rejected (some (js "Service unavailable")))).1
      = { draftValid with error := js "Service unavailable" } ∧
    (submitRun draftValid (CreateOutcome.rejected none)).1
      = { draftValid with error := js "Failed to create ticket. Please try again." } :=
  ⟨(submit_failure_keeps_draft draftValid (some (js "Service unavailable")) 0
      AppState.initial (by decide) (by decide) (by decide) (by decide)).1
      (js "Service unavailable") rfl (by decide),
   (submit_failure_keeps_draft draftValid none 0
      AppState.initial (by decide) (by decide) (by decide) (by decide)).2.1 (Or.inl rfl)⟩

/-! ### Failure of the classify call and the suggestion badge -/

/-- Counterexample to C13 as stated: a draft shows the suggestion badges, the
user asks to classify again, the call fails, and the badges are gone. -/
theorem classify_failure_clears_badge :
    draftSuggested.classifySuggested = true ∧
    categoryBadge draftSuggested = true ∧ priorityBadge draftSuggested = true ∧
    (handleClassify draftSuggested).2
      = [FormEffect.classifyTicket draftSuggested.description] ∧
    (handleClassifyRejected (handleClassify draftSuggested).1).classifySuggested = false ∧
    categoryBadge (handleClassifyRejected (handleClassify draftSuggested).1) = false ∧
    priorityBadge (handleClassifyRejected (handleClassify draftSuggested).1) = false := by
  decide

/-- Claim C13, amended: a classification call that fails remotely sets no
error and pushes no notification: every slot is as before the call except
that the classifying flag is cleared and suggestion-applied is false (it is
cleared when the call is issued); the failure branch itself only clears the
classifying flag, and `App` is not touched. -/
theorem classify_failure_is_silent (s settle : FormState) (now : Nat) (a : AppState)
    (h : 10 ≤ (trim s.description).length) :
    handleClassifyRejected settle = { settle with isClassifying := false } ∧
    handleClassifyRejected (handleClassify s).1
      = { s with isClassifying := false, classifySuggested := false } ∧
    (handleClassifyRejected (handleClassify s).1).error = s.error ∧
    (handleClassifyRejected (handleClassify s).1).category = s.category ∧
    (handleClassifyRejected (handleClassify s).1).priority = s.priority ∧
    (handleClassify s).2 = [FormEffect.classifyTicket s.description] ∧
    appOnFormEffects now a (handleClassify s).2 = a := by
  rw [handleClassify_of_long s h]
  exact ⟨rfl, rfl, rfl, rfl, rfl, rfl, rfl⟩

/-- Witness for the amended C13: a failed classification of the described
draft leaves it as it was. -/
theorem classify_failure_is_silent_witness :
    handleClassifyRejected (handleClassify draftDescribed).1 = draftDescribed :=
  (classify_failure_is_silent draftDescribed draftDescribed 0 AppState.initial
    (by decide)).2.1

theorem handleClassifyResolved_classifySuggested (s : FormState) (r : ClassifyResult) :
    (handleClassifyResolved s r).classifySuggested =
      (truthyOpt r.suggested_category || truthyOpt r.suggested_priority
        || s.classifySuggested) := by
  cases h1 : truthyOpt r.suggested_category <;>
    cases h2 : truthyOpt r.suggested_priority <;>
    simp [handleClassifyResolved, h1, h2]

/-- Counterexample to C14 as stated: after a suggestion was applied the user
picks another category, or another priority, and suggestion-applied is still
true, the badge still shown. -/
theorem manual_change_keeps_classifySuggested :
    draftSuggested.classifySuggested = true ∧
    draftSuggested.category = js "technical" ∧
    (categoryChange draftSuggested (js "billing")).classifySuggested = true ∧
    categoryBadge (categoryChange draftSuggested (js "billing")) = true ∧
    (priorityChange draftSuggested (js "low")).classifySuggested = true ∧
    priorityBadge (priorityChange draftSuggested (js "low")) = true := by
  decide

/-- Claim C14, amended: after a classification response suggestion-applied is
true exactly when at least one of the two suggestions was applied (was
non-empty); a manual change of category or priority leaves the flag as it
is; the flag is cleared when a classification is requested and when a submit
succeeds. -/
theorem classifySuggested_set_and_cleared (s : FormState) (r : ClassifyResult)
    (v : JsString) (h : 10 ≤ (trim s.description).length) :
    (handleClassifyResolved (handleClassify s).1 r).classifySuggested
      = (truthyOpt r.suggested_category || truthyOpt r.suggested_priority) ∧
    (categoryChange s v).classifySuggested = s.classifySuggested ∧
    (priorityChange s v).classifySuggested = s.classifySuggested ∧
    (handleClassify s).1.classifySuggested = false ∧
    (handleSubmitSettled s CreateOutcome.resolved).1.classifySuggested = false := by
  rw [handleClassifyResolved_classifySuggested, handleClassify_of_long s h]
  refine ⟨?_, rfl, rfl, rfl, rfl⟩
  simp

/-- Witness for the amended C14: on the described draft the response with two
suggestions sets the flag and a response without any leaves it false. -/
theorem classifySuggested_set_and_cleared_witness :
    (handleClassifyResolved (handleClassify draftDescribed).1
        suggestTechnicalHigh).classifySuggested = true ∧
    (handleClassifyResolved (handleClassify draftDescribed).1
        { suggested_category := none, suggested_priority := some [] }).classifySuggested
      = false :=
  ⟨(classifySuggested_set_and_cleared draftDescribed suggestTechnicalHigh [] (by decide)).1,
   (classifySuggested_set_and_cleared draftDescribed
      { suggested_category := none, suggested_priority := some [] } [] (by decide)).1⟩

/-! ### List requests -/

theorem getTicketsParams_orUndefined (c p t q : JsString) :
    getTicketsParams { category := orUndefined c, priority := orUndefined p,
                       status := orUndefined t, search := orUndefined q }
      = { category := carriedFilter c, priority := carriedFilter p,
          status := carriedFilter t, search := carriedFilter q } := by
  cases c <;> cases p <;> cases t <;> cases q <;>
    simp [getTicketsParams, orUndefined, carriedFilter, truthy, truthyOpt]

/-- Claim C15: the list request issued by `fetchTickets` through `getTickets`
carries exactly the filter dimensions (category, priority, status, search)
whose current value is not empty, each with that value, and leaves out the
empty ones; on success the held collection is the response, same tickets in
the same order. -/
theorem fetchTickets_carries_set_filters (s : ListState) (data : List Ticket) :
    (fetchTickets s).2 =
      [ListEffect.getTickets
        { category := carriedFilter s.filterCategory,
          priority := carriedFilter s.filterPriority,
          status := carriedFilter s.filterStatus,
          search := carriedFilter s.search }] ∧
    (fetchTicketsResolved s data).1.tickets = data ∧
    (fetchTicketsResolved (fetchTickets s).1 data).1.tickets = data := by
  refine ⟨?_, rfl, rfl⟩
  simp only [fetchTickets, getTicketsParams_orUndefined]

/-- Claim C16: when a list request fails the held collection is what it was
before the request, the loading state is false, and exactly one notification
is pushed, of kind error. -/
theorem fetch_failure_keeps_collection (s : ListState) (now : Nat) (a : AppState) :
    (fetchTickets s).1.tickets = s.tickets ∧
    (fetchTicketsRejected s).1.tickets = s.tickets ∧
    (fetchTicketsRejected (fetchTickets s).1).1.tickets = s.tickets ∧
    (fetchTicketsRejected s).1.loading = false ∧
    toastKinds (fetchTicketsRejected s).2 = [js "error"] ∧
    (appOnListEffects now a (fetchTicketsRejected s).2).toasts
      = a.toasts ++ [{ id := now, message := js "Failed to load tickets",
                       type := js "error" }] :=
  ⟨rfl, rfl, rfl, rfl, rfl, rfl⟩

/-! ### Clearing the filters -/

theorem hasActiveFilters_eq_false_iff (s : ListState) :
    hasActiveFilters s = false ↔
      s.filterCategory = [] ∧ s.filterPriority = [] ∧ s.filterStatus = [] ∧ s.search = [] := by
  simp [hasActiveFilters, truthy_eq_false_iff, and_assoc]

theorem fetchTickets_clearFilters (s : ListState) :
    fetchTickets (clearFilters s) =
      ({ clearFilters s with loading := true },
        [ListEffect.getTickets
          { category := none, priority := none, status := none, search := none }]) := by
  simp [fetchTickets, getTicketsParams_orUndefined, carriedFilter, clearFilters]

theorem afterRender_clearFilters (s : ListState) (now key : Nat)
    (h : hasActiveFilters s = true) :
    afterRender now s (clearFilters s) key key =
      ({ clearFilters s with
          loading := true,
          searchTimer := if s.searchInput = [] then s.searchTimer else some (now + 400, []) },
        [ListEffect.getTickets
          { category := none, priority := none, status := none, search := none }]) := by
  have hne : ¬ fetchDeps s key = fetchDeps (clearFilters s) key := by
    intro he
    have hf : hasActiveFilters s = false := by
      rw [hasActiveFilters_eq_false_iff]
      simpa [fetchDeps, clearFilters] using he
    rw [hf] at h
    exact Bool.false_ne_true h
  unfold afterRender
  simp only [if_neg hne, fetchTickets_clearFilters]
  by_cases he : s.searchInput = []
  · simp [clearFilters, he]
  · have he2 : ¬ ([] : JsString) = s.searchInput := fun e => he e.symm
    simp [clearFilters, he, he2]

/-- Claim C17: `clearFilters` is called only from the Clear button, which is
rendered only when `hasActiveFilters` is truthy.  In every such state the
call yields in one state transition a state where category, priority, status,
committed search and raw search input are all empty, and the render that
follows issues exactly one list request, without filters; the render caused
by that request runs no further effect, and the debounce commit left pending
commits the empty string and causes no request.  `clearFilters` is
idempotent. -/
theorem clearFilters_resets_and_refetches_once (s : ListState) (now later key : Nat)
    (h : hasActiveFilters s = true) :
    ((clearFilters s).filterCategory = [] ∧ (clearFilters s).filterPriority = [] ∧
      (clearFilters s).filterStatus = [] ∧ (clearFilters s).search = [] ∧
      (clearFilters s).searchInput = []) ∧
    listRequests (afterRender now s (clearFilters s) key key).2
      = [{ category := none, priority := none, status := none, search := none }] ∧
    ((afterRender now s (clearFilters s) key key).1.filterCategory = [] ∧
      (afterRender now s (clearFilters s) key key).1.filterPriority = [] ∧
      (afterRender now s (clearFilters s) key key).1.filterStatus = [] ∧
      (afterRender now s (clearFilters s) key key).1.search = [] ∧
      (afterRender now s (clearFilters s) key key).1.searchInput = [] ∧
      (afterRender now s (clearFilters s) key key).1.loading = true ∧
      (afterRender now s (clearFilters s) key key).1.tickets = s.tickets) ∧
    afterRender later (clearFilters s) (afterRender now s (clearFilters s) key key).1 key key
      = ((afterRender now s (clearFilters s) key key).1, []) ∧
    ((∀ due v, s.searchTimer = some (due, v) → v = s.searchInput) →
      ∀ due v, (afterRender now s (clearFilters s) key key).1.searchTimer = some (due, v) →
        listRequests
          (afterRender later (afterRender now s (clearFilters s) key key).1
            (searchTimerFired (afterRender now s (clearFilters s) key key).1 v) key key).2
          = []) ∧
    clearFilters (clearFilters s) = clearFilters s := by
  rw [afterRender_clearFilters s now key h]
  refine ⟨⟨rfl, rfl, rfl, rfl, rfl⟩, rfl, ⟨rfl, rfl, rfl, rfl, rfl, rfl, rfl⟩, ?_, ?_, rfl⟩
  · simp [afterRender, fetchDeps, clearFilters]
  · intro hinv due v ht
    have hv : v = [] := by
      by_cases he : s.searchInput = []
      · simp only [he, if_true] at ht
        rw [hinv due v ht, he]
      · simp only [he, if_false, Option.some.injEq, Prod.mk.injEq] at ht
        exact ht.2.symm
    simp [afterRender, fetchDeps, searchTimerFired, clearFilters, hv, listRequests]

/-- Witness for C17: on the list with a category filter and a committed
search the Clear button is rendered, and the click empties the filters and
issues one request without filters. -/
theorem clearFilters_resets_and_refetches_once_witness :
    hasActiveFilters listFiltered = true ∧
    listRequests (afterRender 2000 listFiltered (clearFilters listFiltered) 0 0).2
      = [{ category := none, priority := none, status := none, search := none }] ∧
    (afterRender 2000 listFiltered (clearFilters listFiltered) 0 0).1.search = [] :=
  ⟨by decide,
   (clearFilters_resets_and_refetches_once listFiltered 2000 3000 0 (by decide)).2.1,
   (clearFilters_resets_and_refetches_once listFiltered 2000 3000 0 (by decide)).2.2.1.2.2.2.1⟩


/-! ### Notifications of a status change -/

/-- Counterexample to C18 as stated: after a failed change of ticket 3 to
closed the list is exactly what it was, so the held status is the previous
one, in progress, and not the requested one. -/
theorem failed_status_change_leaves_previous_status :
    (handleStatusChangeRejected
        (handleStatusChange listWithTicket3 3 (js "closed")).1).1 = listWithTicket3 ∧
    ((handleStatusChangeRejected
        (handleStatusChange listWithTicket3 3 (js "closed")).1).1.tickets.map Ticket.status)
      = [js "in_progress"] ∧
    js "in_progress" ≠ js "closed" := by
  decide

/-- Claim C18, amended: every `handleStatusChange` call pushes exactly one
notification, none when the call is issued, one of kind success when
`updateTicket` resolves and one of kind error when it rejects; on failure the
held collection is what it was before the call, so the ticket has its
previous status. -/
theorem handleStatusChange_notifies_once (s : ListState) (ticketId : Nat)
    (newStatus : JsString) (now : Nat) (a : AppState) :
    toastKinds (handleStatusChange s ticketId newStatus).2 = [] ∧
    toastKinds (handleStatusChangeResolved s ticketId newStatus).2 = [js "success"] ∧
    toastKinds (handleStatusChangeRejected s).2 = [js "error"] ∧
    (appOnListEffects now a (handleStatusChangeResolved s ticketId newStatus).2).toasts
      = a.toasts ++ [{ id := now,
                       message := js "Ticket status updated to " ++ replaceFirst 95 32 newStatus,
                       type := js "success" }] ∧
    (appOnListEffects now a (handleStatusChangeRejected s).2).toasts
      = a.toasts ++ [{ id := now, message := js "Failed to update ticket status",
                       type := js "error" }] ∧
    (handleStatusChangeRejected (handleStatusChange s ticketId newStatus).1).1 = s :=
  ⟨rfl, rfl, rfl, rfl, rfl, rfl⟩

/-! ### The notification queue -/

theorem pushAll_toasts (pushes : List (Nat × JsString × JsString)) :
    ∀ a : AppState, (pushAll a pushes).toasts = a.toasts ++ pushes.map toastOf := by
  induction pushes with
  | nil => intro a; simp [pushAll]
  | cons p rest ih =>
    intro a
    have e : pushAll a (p :: rest) = pushAll (addToast p.1 a p.2.1 (some p.2.2)) rest := rfl
    rw [e, ih]
    simp [addToast, toastOf]

/-- Claim C19: `addToast` appends: right after a push the queue is the
previous queue followed by one notification with that message and kind, the
kind being success when omitted; so after any sequence of pushes the queue
holds the earlier notifications unchanged followed by the pushed ones in the
order of the pushes, and an expiry keeps the remaining ones in that order. -/
theorem addToast_appends (a : AppState) (now id : Nat) (message type : JsString)
    (pushes : List (Nat × JsString × JsString)) :
    (addToast now a message (some type)).toasts
      = a.toasts ++ [{ id := now, message := message, type := type }] ∧
    (addToast now a message none).toasts
      = a.toasts ++ [{ id := now, message := message, type := js "success" }] ∧
    (pushAll a pushes).toasts = a.toasts ++ pushes.map toastOf ∧
    List.Sublist (toastExpired a id).toasts a.toasts :=
  ⟨rfl, rfl, pushAll_toasts pushes a, List.filter_sublist _⟩

/-! ### The title input -/

/-- Claim C20: the title stored on input of `value` is `value` cut to its
first 200 code units: its length is the smaller of the length of `value` and
200, so never more than 200, what is cut off is the rest of `value`, a value
of at most 200 units is stored as it is, cutting twice is cutting once, and
every input is accepted, no other slot changing. -/
theorem titleChange_clamps (s : FormState) (value : JsString) :
    titleChange s value = { s with title := value.take 200 } ∧
    (titleChange s value).title.length = min value.length 200 ∧
    (titleChange s value).title.length ≤ 200 ∧
    (titleChange s value).title ++ value.drop 200 = value ∧
    (value.length ≤ 200 → (titleChange s value).title = value) ∧
    titleChange (titleChange s value) (titleChange s value).title = titleChange s value := by
  refine ⟨rfl, ?_, ?_, ?_, ?_, ?_⟩
  · simp [titleChange, slice0, Nat.min_comm]
  · simp only [titleChange, slice0, List.length_take]
    exact Nat.min_le_left _ _
  · simp [titleChange, slice0]
  · intro h
    simp [titleChange, slice0, List.take_of_length_le h]
  · simp [titleChange, slice0, List.take_take]

/-- Witness for C20: a short title is stored as typed. -/
theorem titleChange_clamps_witness :
    (titleChange FormState.initial (js "Cannot log in")).title = js "Cannot log in" :=
  (titleChange_clamps FormState.initial (js "Cannot log in")).2.2.2.2.1 (by decide)

/-! ### Frame of the status rewrite -/

theorem rewriteStatus_getElem? (ticketId : Nat) (newStatus : JsString)
    (prev : List Ticket) (i : Nat) :
    (rewriteStatus ticketId newStatus prev)[i]? =
      (prev[i]?).map
        (fun t => if t.id = ticketId then { t with status := newStatus } else t) := by
  simp [rewriteStatus]

theorem rewriteStatus_of_absent (ticketId : Nat) (newStatus : JsString) :
    ∀ prev : List Ticket, (∀ t ∈ prev, t.id ≠ ticketId) →
      rewriteStatus ticketId newStatus prev = prev := by
  intro prev
  induction prev with
  | nil => intro _; rfl
  | cons t rest ih =>
    intro h
    have ht : t.id ≠ ticketId := h t (List.mem_cons_self _ _)
    have hr : rewriteStatus ticketId newStatus rest = rest :=
      ih (fun u hu => h u (List.mem_cons_of_mem _ hu))
    unfold rewriteStatus at hr ⊢
    rw [List.map_cons, if_neg ht, hr]

theorem rewriteStatus_keeps_fields {β : Type} (ticketId : Nat) (newStatus : JsString)
    (f : Ticket → β) (hf : ∀ t : Ticket, f { t with status := newStatus } = f t)
    (prev : List Ticket) :
    (rewriteStatus ticketId newStatus prev).map f = prev.map f := by
  unfold rewriteStatus
  rw [List.map_map]
  apply List.map_congr_left
  intro t _
  simp only [Function.comp]
  split
  · exact hf t
  · rfl

/-- Claim C21: the rewrite of the collection made by a successful
`handleStatusChange` touches only the status of the tickets whose id is
`ticketId`: no other slot of the list changes, the collection keeps its
length, at every position a ticket with another id is the same ticket and a
ticket with that id is the same ticket with status `newStatus`, so ids,
titles, descriptions, categories, priorities and creation times are the same
in the same order, and when no held ticket has that id the collection is
unchanged. -/
theorem handleStatusChangeResolved_frame (s : ListState) (ticketId : Nat)
    (newStatus : JsString) :
    (handleStatusChangeResolved s ticketId newStatus).1
      = { s with tickets := (handleStatusChangeResolved s ticketId newStatus).1.tickets } ∧
    (handleStatusChangeResolved s ticketId newStatus).1.tickets.length = s.tickets.length ∧
    (∀ (i : Nat) (t : Ticket), s.tickets[i]? = some t → t.id ≠ ticketId →
      (handleStatusChangeResolved s ticketId newStatus).1.tickets[i]? = some t) ∧
    (∀ (i : Nat) (t : Ticket), s.tickets[i]? = some t → t.id = ticketId →
      (handleStatusChangeResolved s ticketId newStatus).1.tickets[i]?
        = some { t with status := newStatus }) ∧
    ((handleStatusChangeResolved s ticketId newStatus).1.tickets.map Ticket.id
        = s.tickets.map Ticket.id ∧
      (handleStatusChangeResolved s ticketId newStatus).1.tickets.map Ticket.title
        = s.tickets.map Ticket.title ∧
      (handleStatusChangeResolved s ticketId newStatus).1.tickets.map Ticket.description
        = s.tickets.map Ticket.description ∧
      (handleStatusChangeResolved s ticketId newStatus).1.tickets.map Ticket.category
        = s.tickets.map Ticket.category ∧
      (handleStatusChangeResolved s ticketId newStatus).1.tickets.map Ticket.priority
        = s.tickets.map Ticket.priority ∧
      (handleStatusChangeResolved s ticketId newStatus).1.tickets.map Ticket.created_at
        = s.tickets.map Ticket.created_at) ∧
    ((∀ t ∈ s.tickets, t.id ≠ ticketId) →
      (handleStatusChangeResolved s ticketId newStatus).1 = s) := by
  have e : (handleStatusChangeResolved s ticketId newStatus).1.tickets
      = rewriteStatus ticketId newStatus s.tickets := rfl
  refine ⟨rfl, ?_, fun i t hi hne => ?_, fun i t hi heq => ?_, ?_, fun h => ?_⟩
  · rw [e]; simp [rewriteStatus]
  · rw [e, rewriteStatus_getElem?, hi]
    simp [hne]
  · rw [e, rewriteStatus_getElem?, hi]
    simp [heq]
  · rw [e]
    exact ⟨rewriteStatus_keeps_fields _ _ _ (fun _ => rfl) _,
      rewriteStatus_keeps_fields _ _ _ (fun _ => rfl) _,
      rewriteStatus_keeps_fields _ _ _ (fun _ => rfl) _,
      rewriteStatus_keeps_fields _ _ _ (fun _ => rfl) _,
      rewriteStatus_keeps_fields _ _ _ (fun _ => rfl) _,
      rewriteStatus_keeps_fields _ _ _ (fun _ => rfl) _⟩
  · have hr := rewriteStatus_of_absent ticketId newStatus s.tickets h
    simp only [handleStatusChangeResolved, hr]

/-- Witness for C21: on the list holding tickets 7 and 8, resolving ticket 7
leaves ticket 8 as it is at its position, and a change of the absent ticket 9
leaves the list unchanged. -/
theorem handleStatusChangeResolved_frame_witness :
    (handleStatusChangeResolved listWithTickets7And8 7 (js "resolved")).1.tickets[1]?
      = some (ticketOf 8 (js "Invoice is wrong") (js "in_progress")) ∧
    (handleStatusChangeResolved listWithTickets7And8 7 (js "resolved")).1.tickets[0]?
      = some (ticketOf 7 (js "Cannot log in") (js "resolved")) ∧
    (handleStatusChangeResolved listWithTickets7And8 9 (js "closed")).1
      = listWithTickets7And8 :=
  ⟨(handleStatusChangeResolved_frame listWithTickets7And8 7 (js "resolved")).2.2.1 1
      (ticketOf 8 (js "Invoice is wrong") (js "in_progress")) rfl (by decide),
   (handleStatusChangeResolved_frame listWithTickets7And8 7 (js "resolved")).2.2.2.1 0
      (ticketOf 7 (js "Cannot log in") (js "open")) rfl rfl,
   (handleStatusChangeResolved_frame listWithTickets7And8 9 (js "closed")).2.2.2.2.2
      (by decide)⟩

end SupportTicket
